import Mathlib

/-!
Verification of the annotation-computation pipeline of
`amira_blender_rendering/scenes/rendermanager.py`.

The development shallowly embeds the `RenderManager` methods that compute
per-frame annotations: `reorder_bbox`, `compute_3dbbox`, `compute_2dbbox`,
`convert_units`, `build_render_result`, the per-object loop of `postprocess`
(including the zero-visible-objects fallback), its depth/disparity directory
and file handling, and `save_annotations`.

Modelling decisions:
  - numeric scalars are rationals (the Python code uses floats, but every
    claim under study is about structural data flow, not rounding);
  - external geometry helpers from `amira_blender_rendering.math.geometry`
    (`get_relative_translation`, `get_relative_rotation_to_cam_deg`, `gl2cv`,
    `project_p3d`, `p2d_to_pixel_coords`) are opaque parameters collected in
    `RenderCtx`, since their module is not part of the sources under study;
  - the file system is a list of existing directory paths threaded through
    the functions; `imageio.imread` is an opaque `readImage` map from file
    names to channel images;
  - Python exceptions are modelled with `Except PyErr`; an `Except.error`
    result of a step aborts the rest of the computation, matching exception
    propagation.
-/

instance {ε α : Type} [DecidableEq ε] [DecidableEq α] : DecidableEq (Except ε α) :=
  fun a b =>
    match a, b with
    | Except.ok x, Except.ok y =>
      if h : x = y then isTrue (by rw [h]) else isFalse (by simp [h])
    | Except.error e, Except.error f =>
      if h : e = f then isTrue (by rw [h]) else isFalse (by simp [h])
    | Except.ok _, Except.error _ => isFalse (by simp)
    | Except.error _, Except.ok _ => isFalse (by simp)

/-- A 3-component vector of rationals (models `mathutils.Vector` / rows of
the numpy arrays used by the render manager). -/
structure Vec3 where
  x : ℚ
  y : ℚ
  z : ℚ
deriving DecidableEq, Repr

instance : Inhabited Vec3 := ⟨⟨0, 0, 0⟩⟩

/-- A 2-component pixel coordinate. -/
structure Vec2 where
  x : ℚ
  y : ℚ
deriving DecidableEq, Repr

def Vec3.add (a b : Vec3) : Vec3 := ⟨a.x + b.x, a.y + b.y, a.z + b.z⟩

def Vec3.sub (a b : Vec3) : Vec3 := ⟨a.x - b.x, a.y - b.y, a.z - b.z⟩

/-- Scalar halving, models division by 2.0. -/
def Vec3.half (a : Vec3) : Vec3 := ⟨a.x / 2, a.y / 2, a.z / 2⟩

/-- Componentwise application of a scalar function (models numpy scaling,
e.g. blender units to millimeters). -/
def Vec3.map (f : ℚ → ℚ) (a : Vec3) : Vec3 := ⟨f a.x, f a.y, f a.z⟩

/-- The centroid expression used twice in `compute_3dbbox`:
`corner0 + (corner6 - corner0) / 2.0`. -/
def centroid (c0 c6 : Vec3) : Vec3 := c0.add ((c6.sub c0).half)

/-- A 3x3 matrix given by rows. -/
structure Mat3 where
  r0 : Vec3
  r1 : Vec3
  r2 : Vec3
deriving DecidableEq, Repr

def Vec3.dot (a b : Vec3) : ℚ := a.x * b.x + a.y * b.y + a.z * b.z

def Mat3.col0 (m : Mat3) : Vec3 := ⟨m.r0.x, m.r1.x, m.r2.x⟩

def Mat3.col1 (m : Mat3) : Vec3 := ⟨m.r0.y, m.r1.y, m.r2.y⟩

def Mat3.col2 (m : Mat3) : Vec3 := ⟨m.r0.z, m.r1.z, m.r2.z⟩

/-- Matrix product, models `numpy.ndarray.dot` on 3x3 matrices. -/
def matMul (a b : Mat3) : Mat3 :=
  ⟨⟨a.r0.dot b.col0, a.r0.dot b.col1, a.r0.dot b.col2⟩,
   ⟨a.r1.dot b.col0, a.r1.dot b.col1, a.r1.dot b.col2⟩,
   ⟨a.r2.dot b.col0, a.r2.dot b.col1, a.r2.dot b.col2⟩⟩

def mat3_id : Mat3 := ⟨⟨1, 0, 0⟩, ⟨0, 1, 0⟩, ⟨0, 0, 1⟩⟩

/-- Modelled from the spec: `euler_x_to_matrix` lives in
`amira_blender_rendering.math.geometry`, which is not among the sources under
study.  The spec describes the value used at `np.pi` as "a fixed 180° rotation
about the x-axis"; this is that rotation matrix.  The claims treat it as an
opaque fixed matrix. -/
def euler_x_to_matrix_pi : Mat3 := ⟨⟨1, 0, 0⟩, ⟨0, -1, 0⟩, ⟨0, 0, -1⟩⟩

/-- Python exceptions raised by the render manager. -/
inductive PyErr where
  | valueError (msg : String)
  | runtimeError (msg : String)
  | nameError (msg : String)
deriving DecidableEq, Repr

/-- The part of a `bpy.types.Object` the pipeline reads: its name, its local
bounding box (`obj.bound_box`) and its world transform (`obj.matrix_world @ v`,
modelled as an opaque point transformation). -/
structure BpyObject where
  name : String
  bound_box : List Vec3
  matrix_world : Vec3 → Vec3

/-- The part of the blender camera the pipeline reads: its name, and its world
transform split as `matrix_world.to_translation()` and
`matrix_world.to_3x3().normalized()`. -/
structure Camera where
  name : String
  matrix_world_translation : Vec3
  matrix_world_rotation : Mat3

/-- The per-object dictionary handed to `postprocess` /
`build_render_result` (keys `bpy`, `object_class_name`, `object_class_id`,
`object_id`, `id_mask`, `fname_mask`, `visible`). -/
structure Obj where
  bpy : BpyObject
  object_class_name : String
  object_class_id : Int
  object_id : Int
  id_mask : String
  fname_mask : String
  visible : Bool

/-- Opaque external collaborators of the render manager: the geometry
utilities module and image loading.  A channel image is a list of rows of
pixels, each pixel a list of channel values. -/
structure RenderCtx where
  get_relative_translation : BpyObject → Camera → Vec3
  get_relative_rotation_to_cam_deg : BpyObject → Camera → Vec3 → Mat3
  gl2cv : Mat3 → Vec3 → Mat3 × Vec3
  project_p3d : Vec3 → Vec2
  p2d_to_pixel_coords : Vec2 → Vec2
  readImage : String → List (List (List Nat))

/-- Python list indexing `l[i]`, raising IndexError when out of range (the
IndexError is folded into `PyErr.runtimeError` as the claims never
distinguish it). -/
def vidx (l : List Vec3) (i : Nat) : Except PyErr Vec3 :=
  match l.get? i with
  | some v => Except.ok v
  | none => Except.error (PyErr.runtimeError "IndexError")

/-- `RenderManager.reorder_bbox`: checks that the box has exactly 8 corners
and permutes them by `order` (default `[1, 0, 2, 3, 5, 4, 6, 7]`). -/
def reorder_bbox (aabb : List Vec3) (order : List Nat := [1, 0, 2, 3, 5, 4, 6, 7]) :
    Except PyErr (List Vec3) :=
  if aabb.length ≠ 8 then
    Except.error (PyErr.runtimeError "Unexpected length of aabb")
  else
    Except.ok ((List.range 8).map (fun i => aabb.getD (order.getD i 0) default))

/-- `RenderManager.compute_3dbbox`: axis-aligned box (centroid of the raw
corners 0 and 6, then the reordered corners), object-oriented box (the same
after transforming every corner by the object's world matrix), and the pixel
projections of the oriented centroid and corners. -/
def compute_3dbbox (ctx : RenderCtx) (obj : BpyObject) :
    Except PyErr (List Vec3 × List Vec3 × List Vec2) := do
  let aabb := obj.bound_box
  let a0 ← vidx aabb 0
  let a6 ← vidx aabb 6
  let aa_centroid := centroid a0 a6
  let aabb_orig := aabb
  let aabbR ← reorder_bbox aabb
  let np_aabb := aa_centroid :: aabbR
  let oobb0 := aabb_orig.map obj.matrix_world
  let o0 ← vidx oobb0 0
  let o6 ← vidx oobb0 6
  let oo_centroid := centroid o0 o6
  let oobbR ← reorder_bbox oobb0
  let np_oobb := oo_centroid :: oobbR
  let proj := fun v => ctx.p2d_to_pixel_coords (ctx.project_p3d v)
  let np_corners3d := proj oo_centroid :: oobbR.map proj
  return (np_aabb, np_oobb, np_corners3d)

/-- A trivial instantiation of the opaque collaborators, used to evaluate the
model on concrete inputs.  Its mask image is entirely zero. -/
def ctx0 : RenderCtx where
  get_relative_translation := fun _ _ => ⟨0, 0, 0⟩
  get_relative_rotation_to_cam_deg := fun _ _ _ => mat3_id
  gl2cv := fun R t => (R, t)
  project_p3d := fun v => ⟨v.x, v.y⟩
  p2d_to_pixel_coords := fun p => p
  readImage := fun _ => [[[0, 0, 0]]]

def w0 : Vec3 := ⟨0, 0, 0⟩
def w1 : Vec3 := ⟨0, 0, 1⟩
def w2 : Vec3 := ⟨0, 1, 1⟩
def w3 : Vec3 := ⟨0, 1, 0⟩
def w4 : Vec3 := ⟨1, 0, 0⟩
def w5 : Vec3 := ⟨1, 0, 1⟩
def w6 : Vec3 := ⟨1, 1, 1⟩
def w7 : Vec3 := ⟨1, 1, 0⟩

/-- A concrete unit-cube blender object whose world transform shifts x by 1. -/
def bpyObj0 : BpyObject where
  name := "Tool.Cap"
  bound_box := [w0, w1, w2, w3, w4, w5, w6, w7]
  matrix_world := fun v => ⟨v.x + 1, v.y, v.z⟩

/-- C1: for an object whose local bounding box has exactly 8 corners,
`compute_3dbbox` returns `aabb` and `oobb` of exactly 9 rows each: row 0 is
the centroid `corner0 + (corner6 - corner0)/2` computed from the unpermuted
corners (for `oobb` after applying the world matrix to every corner, for
`aabb` with no transform), and rows 1-8 are the corners (untransformed for
`aabb`, world-transformed for `oobb`) reordered by the fixed permutation
`[1, 0, 2, 3, 5, 4, 6, 7]`. -/
theorem compute_3dbbox_rows (ctx : RenderCtx) (obj : BpyObject)
    (v0 v1 v2 v3 v4 v5 v6 v7 : Vec3)
    (h : obj.bound_box = [v0, v1, v2, v3, v4, v5, v6, v7]) :
    compute_3dbbox ctx obj =
      Except.ok
        (centroid v0 v6 :: [v1, v0, v2, v3, v5, v4, v6, v7],
         centroid (obj.matrix_world v0) (obj.matrix_world v6) ::
           ([v1, v0, v2, v3, v5, v4, v6, v7].map obj.matrix_world),
         ctx.p2d_to_pixel_coords (ctx.project_p3d
             (centroid (obj.matrix_world v0) (obj.matrix_world v6))) ::
           ([v1, v0, v2, v3, v5, v4, v6, v7].map obj.matrix_world).map
             (fun v => ctx.p2d_to_pixel_coords (ctx.project_p3d v))) := by
  unfold compute_3dbbox
  rw [h]
  rfl

/-- Witness for C1 at a concrete 8-corner unit cube. -/
theorem compute_3dbbox_rows_witness :
    compute_3dbbox ctx0 bpyObj0 =
      Except.ok
        (⟨1/2, 1/2, 1/2⟩ :: [w1, w0, w2, w3, w5, w4, w6, w7],
         ⟨3/2, 1/2, 1/2⟩ ::
           [⟨1, 0, 1⟩, ⟨1, 0, 0⟩, ⟨1, 1, 1⟩, ⟨1, 1, 0⟩,
            ⟨2, 0, 1⟩, ⟨2, 0, 0⟩, ⟨2, 1, 1⟩, ⟨2, 1, 0⟩],
         ⟨3/2, 1/2⟩ ::
           [⟨1, 0⟩, ⟨1, 0⟩, ⟨1, 1⟩, ⟨1, 1⟩, ⟨2, 0⟩, ⟨2, 0⟩, ⟨2, 1⟩, ⟨2, 1⟩]) := by
  rw [compute_3dbbox_rows ctx0 bpyObj0 w0 w1 w2 w3 w4 w5 w6 w7 rfl]
  simp [bpyObj0, ctx0, w0, w1, w2, w3, w4, w5, w6, w7, centroid,
    Vec3.add, Vec3.sub, Vec3.half]
  norm_num

/-- C6: `reorder_bbox` raises a RuntimeError for every input whose length is
not exactly 8, and never raises for an input of length exactly 8. -/
theorem reorder_bbox_length_check (l : List Vec3) :
    (l.length ≠ 8 →
      reorder_bbox l = Except.error (PyErr.runtimeError "Unexpected length of aabb")) ∧
    (l.length = 8 → ∃ r, reorder_bbox l = Except.ok r) := by
  constructor <;> intro h <;> simp [reorder_bbox, h]

/-- Witness for C6 at inputs of length 4, 9 and 8. -/
theorem reorder_bbox_length_check_witness :
    reorder_bbox (List.replicate 4 w0) =
      Except.error (PyErr.runtimeError "Unexpected length of aabb") ∧
    reorder_bbox (List.replicate 9 w0) =
      Except.error (PyErr.runtimeError "Unexpected length of aabb") ∧
    ∃ r, reorder_bbox (List.replicate 8 w0) = Except.ok r :=
  ⟨(reorder_bbox_length_check (List.replicate 4 w0)).1 (by decide),
   (reorder_bbox_length_check (List.replicate 9 w0)).1 (by decide),
   (reorder_bbox_length_check (List.replicate 8 w0)).2 (by decide)⟩

/-- Python truthiness test for all-zero channel-summed masks. -/
def allZero (mask : List (List Nat)) : Bool :=
  mask.all (fun row => row.all (fun v => v == 0))

/-- Modelled from the spec: `boundingbox_from_mask` lives in
`amira_blender_rendering.postprocessing`, which is not among the sources under
study.  Per the spec it returns the tight pixel bounding box of the non-zero
pixels of the channel-summed mask, and signals the empty-mask condition when
no non-zero pixel exists; since the caller in `build_render_result` tests the
returned value against `None`, the empty-mask condition is modelled as
`none`. -/
def boundingbox_from_mask (mask : List (List Nat)) : Option (Nat × Nat × Nat × Nat) :=
  if allZero mask then none
  else
    let coords := (mask.enum.map (fun p =>
      p.2.enum.filterMap (fun q => if q.2 ≠ 0 then some (p.1, q.1) else none))).flatten
    let xs := coords.map (fun c => c.2)
    let ys := coords.map (fun c => c.1)
    some (xs.foldl min (xs.headD 0), ys.foldl min (ys.headD 0),
          xs.foldl max 0 + 1, ys.foldl max 0 + 1)

/-- `np.sum(mask, axis=2)`: collapse the channels of each pixel by summation. -/
def sumChannels (img : List (List (List Nat))) : List (List Nat) :=
  img.map (fun row => row.map (fun px => px.foldl (fun a b => a + b) 0))

/-- `RenderManager.compute_2dbbox`: load the mask image, collapse channels by
summation and take the bounding box of the non-zero pixels. -/
def compute_2dbbox (ctx : RenderCtx) (fname_mask : String) :
    Option (Nat × Nat × Nat × Nat) :=
  boundingbox_from_mask (sumChannels (ctx.readImage fname_mask))

/-- A mask image with no non-zero pixel (after channel summation). -/
def emptyMask (img : List (List (List Nat))) : Bool :=
  allZero (sumChannels img)

/-- `PoseRenderResult` with the fields the render manager populates.  The
always-`None` image payload fields (`rgb_const`, `rgb_random`, `depth`,
`mask`) are omitted: the code passes `None` for them in every construction. -/
structure PoseRenderResult where
  object_class_name : String
  object_class_id : Int
  object_name : String
  object_id : Int
  rotation : Mat3
  translation : Vec3
  corners2d : Option (Nat × Nat × Nat × Nat)
  corners3d : Option (List Vec2)
  aabb : Option (List Vec3)
  oobb : Option (List Vec3)
  mask_name : String
  visible : Bool
  camera_rotation : Mat3
  camera_translation : Vec3

/-- `RenderManager.convert_units`: when a unit-conversion function is
configured, rescale translation, camera translation, aabb and oobb; when it
is `None`, return the result unchanged.  The conversion function
(`bu_to_mm` by default, a numpy broadcast scaling from the conversions
module outside the sources under study) is modelled as a scalar map applied
componentwise; on absent (`None`) boxes it is modelled as the identity, which
is forced by the fact that the code runs it on every result, including
invisible ones whose box fields are `None`. -/
def convert_units (uc : Option (ℚ → ℚ)) (render_result : PoseRenderResult) :
    PoseRenderResult :=
  match uc with
  | none => render_result
  | some f =>
    { render_result with
      translation := render_result.translation.map f
      camera_translation := render_result.camera_translation.map f
      aabb := render_result.aabb.map (fun l => l.map (Vec3.map f))
      oobb := render_result.oobb.map (fun l => l.map (Vec3.map f)) }

/-- Componentwise unit conversion of a single vector, as `convert_units`
applies it to the translation fields. -/
def applyUC (uc : Option (ℚ → ℚ)) (v : Vec3) : Vec3 :=
  match uc with
  | none => v
  | some f => v.map f

/-- The OpenGL-convention `PoseRenderResult` literal built by
`build_render_result` (before unit conversion): relative pose from the
geometry utilities, camera world pose, bbox fields as supplied, identity and
visibility from the (possibly downgraded) object dictionary. -/
def mk_result_gl (ctx : RenderCtx) (obj : Obj) (camera : Camera) (zeroing : Vec3)
    (corners2d : Option (Nat × Nat × Nat × Nat)) (corners3d : Option (List Vec2))
    (aabb oobb : Option (List Vec3)) : PoseRenderResult where
  object_class_name := obj.object_class_name
  object_class_id := obj.object_class_id
  object_name := obj.bpy.name
  object_id := obj.object_id
  rotation := ctx.get_relative_rotation_to_cam_deg obj.bpy camera zeroing
  translation := ctx.get_relative_translation obj.bpy camera
  corners2d := corners2d
  corners3d := corners3d
  aabb := aabb
  oobb := oobb
  mask_name := obj.id_mask
  visible := obj.visible
  camera_rotation := camera.matrix_world_rotation
  camera_translation := camera.matrix_world_translation

/-- The OpenCV-convention `PoseRenderResult` literal built by
`build_render_result` (before unit conversion): object rotation/translation
run through `gl2cv`, camera rotation post-multiplied by the fixed 180-degree
rotation about x, camera translation unchanged, bbox fields as supplied. -/
def mk_result_cv (ctx : RenderCtx) (obj : Obj) (camera : Camera) (zeroing : Vec3)
    (corners2d : Option (Nat × Nat × Nat × Nat)) (corners3d : Option (List Vec2))
    (aabb oobb : Option (List Vec3)) : PoseRenderResult where
  object_class_name := obj.object_class_name
  object_class_id := obj.object_class_id
  object_name := obj.bpy.name
  object_id := obj.object_id
  rotation := (ctx.gl2cv (ctx.get_relative_rotation_to_cam_deg obj.bpy camera zeroing)
    (ctx.get_relative_translation obj.bpy camera)).1
  translation := (ctx.gl2cv (ctx.get_relative_rotation_to_cam_deg obj.bpy camera zeroing)
    (ctx.get_relative_translation obj.bpy camera)).2
  corners2d := corners2d
  corners3d := corners3d
  aabb := aabb
  oobb := oobb
  mask_name := obj.id_mask
  visible := obj.visible
  camera_rotation := matMul camera.matrix_world_rotation euler_x_to_matrix_pi
  camera_translation := camera.matrix_world_translation

/-- `RenderManager.build_render_result`: compute relative pose, camera pose,
bounding boxes (with the empty-mask policy), assemble the OpenGL-convention
result and its OpenCV-convention counterpart, and convert units on both.
Returns the (possibly visibility-downgraded) object dictionary along with the
two results, modelling the in-place mutation of `obj['visible']`. -/
def build_render_result (ctx : RenderCtx) (uc : Option (ℚ → ℚ)) (obj : Obj)
    (camera : Camera) (zeroing : Vec3) (visibility_from_mask : Bool := false) :
    Except PyErr (Obj × PoseRenderResult × PoseRenderResult) := do
  let step ←
    if obj.visible then
      match compute_2dbbox ctx obj.fname_mask with
      | some corners2d => do
        let boxes ← compute_3dbbox ctx obj.bpy
        Except.ok (obj, some corners2d, some boxes.2.2, some boxes.1, some boxes.2.1)
      | none =>
        if visibility_from_mask then
          Except.ok ({ obj with visible := false },
            (none : Option (Nat × Nat × Nat × Nat)), none, none, none)
        else
          Except.error (PyErr.valueError "Invalid mask given")
    else
      Except.ok (obj, none, none, none, none)
  let render_result_gl :=
    mk_result_gl ctx step.1 camera zeroing step.2.1 step.2.2.1 step.2.2.2.1 step.2.2.2.2
  let render_result_cv :=
    mk_result_cv ctx step.1 camera zeroing step.2.1 step.2.2.1 step.2.2.2.1 step.2.2.2.2
  return (step.1, convert_units uc render_result_gl, convert_units uc render_result_cv)

theorem convert_units_visible (uc : Option (ℚ → ℚ)) (r : PoseRenderResult) :
    (convert_units uc r).visible = r.visible := by
  cases uc <;> rfl

theorem convert_units_corners2d (uc : Option (ℚ → ℚ)) (r : PoseRenderResult) :
    (convert_units uc r).corners2d = r.corners2d := by
  cases uc <;> rfl

theorem convert_units_corners3d (uc : Option (ℚ → ℚ)) (r : PoseRenderResult) :
    (convert_units uc r).corners3d = r.corners3d := by
  cases uc <;> rfl

theorem convert_units_rotation (uc : Option (ℚ → ℚ)) (r : PoseRenderResult) :
    (convert_units uc r).rotation = r.rotation := by
  cases uc <;> rfl

theorem convert_units_camera_rotation (uc : Option (ℚ → ℚ)) (r : PoseRenderResult) :
    (convert_units uc r).camera_rotation = r.camera_rotation := by
  cases uc <;> rfl

theorem convert_units_translation (uc : Option (ℚ → ℚ)) (r : PoseRenderResult) :
    (convert_units uc r).translation = applyUC uc r.translation := by
  cases uc <;> rfl

theorem convert_units_camera_translation (uc : Option (ℚ → ℚ)) (r : PoseRenderResult) :
    (convert_units uc r).camera_translation = applyUC uc r.camera_translation := by
  cases uc <;> rfl

theorem convert_units_aabb_none (uc : Option (ℚ → ℚ)) (r : PoseRenderResult)
    (h : r.aabb = none) : (convert_units uc r).aabb = none := by
  cases uc <;> simp [convert_units, h]

theorem convert_units_oobb_none (uc : Option (ℚ → ℚ)) (r : PoseRenderResult)
    (h : r.oobb = none) : (convert_units uc r).oobb = none := by
  cases uc <;> simp [convert_units, h]

theorem convert_units_aabb_isSome (uc : Option (ℚ → ℚ)) (r : PoseRenderResult) :
    (convert_units uc r).aabb.isSome = r.aabb.isSome := by
  cases uc <;> simp [convert_units]

theorem convert_units_oobb_isSome (uc : Option (ℚ → ℚ)) (r : PoseRenderResult) :
    (convert_units uc r).oobb.isSome = r.oobb.isSome := by
  cases uc <;> simp [convert_units]

theorem convert_units_aabb_eq (uc : Option (ℚ → ℚ)) (r s : PoseRenderResult)
    (h : r.aabb = s.aabb) : (convert_units uc r).aabb = (convert_units uc s).aabb := by
  cases uc <;> simp [convert_units, h]

theorem convert_units_oobb_eq (uc : Option (ℚ → ℚ)) (r s : PoseRenderResult)
    (h : r.oobb = s.oobb) : (convert_units uc r).oobb = (convert_units uc s).oobb := by
  cases uc <;> simp [convert_units, h]

/-- C8: `convert_units` replaces exactly the fields translation, camera
translation, aabb and oobb by the unit conversion of their previous values
and leaves rotation, camera rotation, corners2d, corners3d, visibility, mask
name and the identity fields unchanged; with no conversion function
configured (`None`) every field is unchanged. -/
theorem convert_units_fields (uc : Option (ℚ → ℚ)) (r : PoseRenderResult) :
    convert_units none r = r ∧
    (∀ f, uc = some f →
      (convert_units uc r).translation = r.translation.map f ∧
      (convert_units uc r).camera_translation = r.camera_translation.map f ∧
      (convert_units uc r).aabb = r.aabb.map (fun l => l.map (Vec3.map f)) ∧
      (convert_units uc r).oobb = r.oobb.map (fun l => l.map (Vec3.map f))) ∧
    (convert_units uc r).rotation = r.rotation ∧
    (convert_units uc r).camera_rotation = r.camera_rotation ∧
    (convert_units uc r).corners2d = r.corners2d ∧
    (convert_units uc r).corners3d = r.corners3d ∧
    (convert_units uc r).visible = r.visible ∧
    (convert_units uc r).mask_name = r.mask_name ∧
    (convert_units uc r).object_class_name = r.object_class_name ∧
    (convert_units uc r).object_class_id = r.object_class_id ∧
    (convert_units uc r).object_name = r.object_name ∧
    (convert_units uc r).object_id = r.object_id := by
  refine ⟨rfl, ?_, ?_, ?_, ?_, ?_, ?_, ?_, ?_, ?_, ?_, ?_⟩ <;>
    first
      | (intro f hf; subst hf; exact ⟨rfl, rfl, rfl, rfl⟩)
      | (cases uc <;> rfl)

/-- A fixed sample result used to evaluate the model on concrete inputs. -/
def sampleResult : PoseRenderResult where
  object_class_name := "ToolCap"
  object_class_id := 7
  object_name := "Tool.Cap"
  object_id := 3
  rotation := mat3_id
  translation := ⟨1, 2, 3⟩
  corners2d := some (0, 0, 2, 2)
  corners3d := some [⟨1, 1⟩]
  aabb := some [⟨1, 0, 0⟩]
  oobb := some [⟨0, 1, 0⟩]
  mask_name := "0000.png"
  visible := true
  camera_rotation := mat3_id
  camera_translation := ⟨4, 5, 6⟩

/-- Witness for C8 at a concrete result and the scale-by-1000 conversion. -/
theorem convert_units_fields_witness :
    (convert_units (some (fun q => 1000 * q)) sampleResult).translation =
      sampleResult.translation.map (fun q => 1000 * q) ∧
    (convert_units (some (fun q => 1000 * q)) sampleResult).aabb =
      sampleResult.aabb.map (fun l => l.map (Vec3.map (fun q => 1000 * q))) ∧
    (convert_units (some (fun q => 1000 * q)) sampleResult).rotation =
      sampleResult.rotation ∧
    convert_units none sampleResult = sampleResult := by
  have h := convert_units_fields (some (fun q => 1000 * q)) sampleResult
  exact ⟨(h.2.1 _ rfl).1, (h.2.1 _ rfl).2.2.1, h.2.2.1, h.1⟩

theorem compute_2dbbox_none_of_empty (ctx : RenderCtx) (fname : String)
    (h : emptyMask (ctx.readImage fname) = true) :
    compute_2dbbox ctx fname = none := by
  unfold compute_2dbbox boundingbox_from_mask
  unfold emptyMask at h
  rw [h]
  rfl

theorem build_eq_invisible (ctx : RenderCtx) (uc : Option (ℚ → ℚ)) (obj : Obj)
    (camera : Camera) (zeroing : Vec3) (vfm : Bool) (hv : obj.visible = false) :
    build_render_result ctx uc obj camera zeroing vfm =
      Except.ok (obj,
        convert_units uc (mk_result_gl ctx obj camera zeroing none none none none),
        convert_units uc (mk_result_cv ctx obj camera zeroing none none none none)) := by
  simp [build_render_result, hv]

theorem build_eq_visible (ctx : RenderCtx) (uc : Option (ℚ → ℚ)) (obj : Obj)
    (camera : Camera) (zeroing : Vec3) (vfm : Bool)
    (bb : Nat × Nat × Nat × Nat) (boxes : List Vec3 × List Vec3 × List Vec2)
    (hv : obj.visible = true)
    (hbb : compute_2dbbox ctx obj.fname_mask = some bb)
    (h3 : compute_3dbbox ctx obj.bpy = Except.ok boxes) :
    build_render_result ctx uc obj camera zeroing vfm =
      Except.ok (obj,
        convert_units uc (mk_result_gl ctx obj camera zeroing
          (some bb) (some boxes.2.2) (some boxes.1) (some boxes.2.1)),
        convert_units uc (mk_result_cv ctx obj camera zeroing
          (some bb) (some boxes.2.2) (some boxes.1) (some boxes.2.1))) := by
  simp [build_render_result, hv, hbb, h3]
  rfl

theorem build_eq_3dbbox_err (ctx : RenderCtx) (uc : Option (ℚ → ℚ)) (obj : Obj)
    (camera : Camera) (zeroing : Vec3) (vfm : Bool)
    (bb : Nat × Nat × Nat × Nat) (e : PyErr)
    (hv : obj.visible = true)
    (hbb : compute_2dbbox ctx obj.fname_mask = some bb)
    (h3 : compute_3dbbox ctx obj.bpy = Except.error e) :
    build_render_result ctx uc obj camera zeroing vfm = Except.error e := by
  simp [build_render_result, hv, hbb, h3]
  rfl

theorem build_eq_downgrade (ctx : RenderCtx) (uc : Option (ℚ → ℚ)) (obj : Obj)
    (camera : Camera) (zeroing : Vec3)
    (hv : obj.visible = true)
    (hbb : compute_2dbbox ctx obj.fname_mask = none) :
    build_render_result ctx uc obj camera zeroing true =
      Except.ok ({ obj with visible := false },
        convert_units uc (mk_result_gl ctx { obj with visible := false }
          camera zeroing none none none none),
        convert_units uc (mk_result_cv ctx { obj with visible := false }
          camera zeroing none none none none)) := by
  simp [build_render_result, hv, hbb]

theorem build_eq_invalid_mask (ctx : RenderCtx) (uc : Option (ℚ → ℚ)) (obj : Obj)
    (camera : Camera) (zeroing : Vec3)
    (hv : obj.visible = true)
    (hbb : compute_2dbbox ctx obj.fname_mask = none) :
    build_render_result ctx uc obj camera zeroing false =
      Except.error (PyErr.valueError "Invalid mask given") := by
  simp [build_render_result, hv, hbb]

/-- C2: for a visible object whose mask image has no non-zero pixel,
`build_render_result` with `visibility_from_mask = true` does not raise,
downgrades the object's visibility flag to false and leaves all bounding-box
fields null in both returned results; with `visibility_from_mask = false` it
raises the empty-mask ValueError. -/
theorem build_render_result_empty_mask (ctx : RenderCtx) (uc : Option (ℚ → ℚ))
    (obj : Obj) (camera : Camera) (zeroing : Vec3)
    (hv : obj.visible = true)
    (hm : emptyMask (ctx.readImage obj.fname_mask) = true) :
    (∃ obj' gl cv,
      build_render_result ctx uc obj camera zeroing true = Except.ok (obj', gl, cv) ∧
      obj'.visible = false ∧ gl.visible = false ∧ cv.visible = false ∧
      gl.corners2d = none ∧ gl.corners3d = none ∧ gl.aabb = none ∧ gl.oobb = none ∧
      cv.corners2d = none ∧ cv.corners3d = none ∧ cv.aabb = none ∧ cv.oobb = none) ∧
    build_render_result ctx uc obj camera zeroing false =
      Except.error (PyErr.valueError "Invalid mask given") := by
  have h2 : compute_2dbbox ctx obj.fname_mask = none :=
    compute_2dbbox_none_of_empty ctx obj.fname_mask hm
  refine ⟨⟨{ obj with visible := false }, _, _,
    build_eq_downgrade ctx uc obj camera zeroing hv h2,
    rfl,
    convert_units_visible uc _,
    convert_units_visible uc _,
    convert_units_corners2d uc _,
    convert_units_corners3d uc _,
    convert_units_aabb_none uc _ rfl,
    convert_units_oobb_none uc _ rfl,
    convert_units_corners2d uc _,
    convert_units_corners3d uc _,
    convert_units_aabb_none uc _ rfl,
    convert_units_oobb_none uc _ rfl⟩,
    build_eq_invalid_mask ctx uc obj camera zeroing hv h2⟩

/-- A concrete camera, zeroing vector and objects for evaluating the model. -/
def cam0 : Camera where
  name := "StereoCamera.Left"
  matrix_world_translation := ⟨0, 0, 10⟩
  matrix_world_rotation := mat3_id

def z0 : Vec3 := ⟨0, 0, 0⟩

/-- A nominally visible object (its mask under `ctx0` is all zero). -/
def obj_vis0 : Obj where
  bpy := bpyObj0
  object_class_name := "ToolCap"
  object_class_id := 1
  object_id := 0
  id_mask := "1_1_0"
  fname_mask := "mask0.png"
  visible := true

/-- An invisible object. -/
def obj_inv0 : Obj where
  bpy := bpyObj0
  object_class_name := "ToolCap"
  object_class_id := 1
  object_id := 1
  id_mask := "1_1_1"
  fname_mask := "mask1.png"
  visible := false

/-- Witness for C2 at a concrete visible object with an all-zero mask. -/
theorem build_render_result_empty_mask_witness :
    (∃ obj' gl cv,
      build_render_result ctx0 none obj_vis0 cam0 z0 true = Except.ok (obj', gl, cv) ∧
      obj'.visible = false ∧ gl.visible = false ∧ cv.visible = false ∧
      gl.corners2d = none ∧ gl.corners3d = none ∧ gl.aabb = none ∧ gl.oobb = none ∧
      cv.corners2d = none ∧ cv.corners3d = none ∧ cv.aabb = none ∧ cv.oobb = none) ∧
    build_render_result ctx0 none obj_vis0 cam0 z0 false =
      Except.error (PyErr.valueError "Invalid mask given") :=
  build_render_result_empty_mask ctx0 none obj_vis0 cam0 z0 rfl rfl

theorem mk_results_convention (ctx : RenderCtx) (uc : Option (ℚ → ℚ)) (o : Obj)
    (camera : Camera) (zeroing : Vec3)
    (c2 : Option (Nat × Nat × Nat × Nat)) (c3 : Option (List Vec2))
    (ab ob : Option (List Vec3)) :
    (convert_units uc (mk_result_cv ctx o camera zeroing c2 c3 ab ob)).corners2d =
      (convert_units uc (mk_result_gl ctx o camera zeroing c2 c3 ab ob)).corners2d ∧
    (convert_units uc (mk_result_cv ctx o camera zeroing c2 c3 ab ob)).corners3d =
      (convert_units uc (mk_result_gl ctx o camera zeroing c2 c3 ab ob)).corners3d ∧
    (convert_units uc (mk_result_cv ctx o camera zeroing c2 c3 ab ob)).aabb =
      (convert_units uc (mk_result_gl ctx o camera zeroing c2 c3 ab ob)).aabb ∧
    (convert_units uc (mk_result_cv ctx o camera zeroing c2 c3 ab ob)).oobb =
      (convert_units uc (mk_result_gl ctx o camera zeroing c2 c3 ab ob)).oobb ∧
    (convert_units uc (mk_result_cv ctx o camera zeroing c2 c3 ab ob)).camera_translation =
      (convert_units uc (mk_result_gl ctx o camera zeroing c2 c3 ab ob)).camera_translation ∧
    (convert_units uc (mk_result_cv ctx o camera zeroing c2 c3 ab ob)).camera_rotation =
      matMul (convert_units uc (mk_result_gl ctx o camera zeroing c2 c3 ab ob)).camera_rotation
        euler_x_to_matrix_pi ∧
    (convert_units uc (mk_result_gl ctx o camera zeroing c2 c3 ab ob)).rotation =
      ctx.get_relative_rotation_to_cam_deg o.bpy camera zeroing ∧
    (convert_units uc (mk_result_gl ctx o camera zeroing c2 c3 ab ob)).translation =
      applyUC uc (ctx.get_relative_translation o.bpy camera) ∧
    (convert_units uc (mk_result_cv ctx o camera zeroing c2 c3 ab ob)).rotation =
      (ctx.gl2cv (ctx.get_relative_rotation_to_cam_deg o.bpy camera zeroing)
        (ctx.get_relative_translation o.bpy camera)).1 ∧
    (convert_units uc (mk_result_cv ctx o camera zeroing c2 c3 ab ob)).translation =
      applyUC uc ((ctx.gl2cv (ctx.get_relative_rotation_to_cam_deg o.bpy camera zeroing)
        (ctx.get_relative_translation o.bpy camera)).2) := by
  refine ⟨?_, ?_, ?_, ?_, ?_, ?_, ?_, ?_, ?_, ?_⟩
  · rw [convert_units_corners2d, convert_units_corners2d]; rfl
  · rw [convert_units_corners3d, convert_units_corners3d]; rfl
  · exact convert_units_aabb_eq uc _ _ rfl
  · exact convert_units_oobb_eq uc _ _ rfl
  · rw [convert_units_camera_translation, convert_units_camera_translation]; rfl
  · rw [convert_units_camera_rotation, convert_units_camera_rotation]; rfl
  · rw [convert_units_rotation]; rfl
  · rw [convert_units_translation]; rfl
  · rw [convert_units_rotation]; rfl
  · rw [convert_units_translation]; rfl

/-- C4: the OpenCV-convention result of `build_render_result` has the same
bounding-box fields as the render-convention result, the same camera
translation, camera rotation equal to the render-convention camera rotation
right-multiplied by the fixed 180-degree rotation about the x-axis, and
object rotation/translation obtained by the `gl2cv` convention conversion of
the render-convention relative pose (with unit conversion applied to the
translation afterwards, as for the render-convention result itself). -/
theorem build_render_result_cv_convention (ctx : RenderCtx) (uc : Option (ℚ → ℚ))
    (obj : Obj) (camera : Camera) (zeroing : Vec3) (vfm : Bool)
    (obj' : Obj) (gl cv : PoseRenderResult)
    (h : build_render_result ctx uc obj camera zeroing vfm = Except.ok (obj', gl, cv)) :
    cv.corners2d = gl.corners2d ∧
    cv.corners3d = gl.corners3d ∧
    cv.aabb = gl.aabb ∧
    cv.oobb = gl.oobb ∧
    cv.camera_translation = gl.camera_translation ∧
    cv.camera_rotation = matMul gl.camera_rotation euler_x_to_matrix_pi ∧
    gl.rotation = ctx.get_relative_rotation_to_cam_deg obj.bpy camera zeroing ∧
    gl.translation = applyUC uc (ctx.get_relative_translation obj.bpy camera) ∧
    cv.rotation = (ctx.gl2cv (ctx.get_relative_rotation_to_cam_deg obj.bpy camera zeroing)
      (ctx.get_relative_translation obj.bpy camera)).1 ∧
    cv.translation = applyUC uc ((ctx.gl2cv
      (ctx.get_relative_rotation_to_cam_deg obj.bpy camera zeroing)
      (ctx.get_relative_translation obj.bpy camera)).2) := by
  cases hv : obj.visible with
  | false =>
    rw [build_eq_invisible ctx uc obj camera zeroing vfm hv] at h
    simp only [Except.ok.injEq, Prod.mk.injEq] at h
    obtain ⟨rfl, rfl, rfl⟩ := h
    exact mk_results_convention ctx uc obj camera zeroing none none none none
  | true =>
    cases hbb : compute_2dbbox ctx obj.fname_mask with
    | none =>
      cases vfm with
      | false =>
        rw [build_eq_invalid_mask ctx uc obj camera zeroing hv hbb] at h
        simp at h
      | true =>
        rw [build_eq_downgrade ctx uc obj camera zeroing hv hbb] at h
        simp only [Except.ok.injEq, Prod.mk.injEq] at h
        obtain ⟨rfl, rfl, rfl⟩ := h
        exact mk_results_convention ctx uc { obj with visible := false } camera zeroing
          none none none none
    | some bb =>
      cases h3 : compute_3dbbox ctx obj.bpy with
      | error e =>
        rw [build_eq_3dbbox_err ctx uc obj camera zeroing vfm bb e hv hbb h3] at h
        simp at h
      | ok boxes =>
        rw [build_eq_visible ctx uc obj camera zeroing vfm bb boxes hv hbb h3] at h
        simp only [Except.ok.injEq, Prod.mk.injEq] at h
        obtain ⟨rfl, rfl, rfl⟩ := h
        exact mk_results_convention ctx uc obj camera zeroing _ _ _ _

/-- Witness for C4 at a concrete invisible object (so the build succeeds
immediately), with no unit conversion configured. -/
theorem build_render_result_cv_convention_witness :
    (mk_result_cv ctx0 obj_inv0 cam0 z0 none none none none).corners2d =
      (mk_result_gl ctx0 obj_inv0 cam0 z0 none none none none).corners2d ∧
    (mk_result_cv ctx0 obj_inv0 cam0 z0 none none none none).corners3d =
      (mk_result_gl ctx0 obj_inv0 cam0 z0 none none none none).corners3d ∧
    (mk_result_cv ctx0 obj_inv0 cam0 z0 none none none none).aabb =
      (mk_result_gl ctx0 obj_inv0 cam0 z0 none none none none).aabb ∧
    (mk_result_cv ctx0 obj_inv0 cam0 z0 none none none none).oobb =
      (mk_result_gl ctx0 obj_inv0 cam0 z0 none none none none).oobb ∧
    (mk_result_cv ctx0 obj_inv0 cam0 z0 none none none none).camera_translation =
      (mk_result_gl ctx0 obj_inv0 cam0 z0 none none none none).camera_translation ∧
    (mk_result_cv ctx0 obj_inv0 cam0 z0 none none none none).camera_rotation =
      matMul (mk_result_gl ctx0 obj_inv0 cam0 z0 none none none none).camera_rotation
        euler_x_to_matrix_pi ∧
    (mk_result_gl ctx0 obj_inv0 cam0 z0 none none none none).rotation =
      ctx0.get_relative_rotation_to_cam_deg obj_inv0.bpy cam0 z0 ∧
    (mk_result_gl ctx0 obj_inv0 cam0 z0 none none none none).translation =
      applyUC none (ctx0.get_relative_translation obj_inv0.bpy cam0) ∧
    (mk_result_cv ctx0 obj_inv0 cam0 z0 none none none none).rotation =
      (ctx0.gl2cv (ctx0.get_relative_rotation_to_cam_deg obj_inv0.bpy cam0 z0)
        (ctx0.get_relative_translation obj_inv0.bpy cam0)).1 ∧
    (mk_result_cv ctx0 obj_inv0 cam0 z0 none none none none).translation =
      applyUC none ((ctx0.gl2cv (ctx0.get_relative_rotation_to_cam_deg obj_inv0.bpy cam0 z0)
        (ctx0.get_relative_translation obj_inv0.bpy cam0)).2) :=
  build_render_result_cv_convention ctx0 none obj_inv0 cam0 z0 false obj_inv0
    (mk_result_gl ctx0 obj_inv0 cam0 z0 none none none none)
    (mk_result_cv ctx0 obj_inv0 cam0 z0 none none none none) rfl

/-- C5: for every built `PoseRenderResult` (both conventions), if its
visibility flag is false then corners2d, corners3d, aabb and oobb are null,
and if its visibility flag is true and the object's mask was non-empty then
those four fields are populated. -/
theorem pose_result_bbox_invariant (ctx : RenderCtx) (uc : Option (ℚ → ℚ))
    (obj : Obj) (camera : Camera) (zeroing : Vec3) (vfm : Bool)
    (obj' : Obj) (gl cv : PoseRenderResult)
    (h : build_render_result ctx uc obj camera zeroing vfm = Except.ok (obj', gl, cv)) :
    ((gl.visible = false →
        gl.corners2d = none ∧ gl.corners3d = none ∧ gl.aabb = none ∧ gl.oobb = none) ∧
     (gl.visible = true → emptyMask (ctx.readImage obj.fname_mask) = false →
        gl.corners2d.isSome = true ∧ gl.corners3d.isSome = true ∧
        gl.aabb.isSome = true ∧ gl.oobb.isSome = true)) ∧
    ((cv.visible = false →
        cv.corners2d = none ∧ cv.corners3d = none ∧ cv.aabb = none ∧ cv.oobb = none) ∧
     (cv.visible = true → emptyMask (ctx.readImage obj.fname_mask) = false →
        cv.corners2d.isSome = true ∧ cv.corners3d.isSome = true ∧
        cv.aabb.isSome = true ∧ cv.oobb.isSome = true)) := by
  cases hv : obj.visible with
  | false =>
    rw [build_eq_invisible ctx uc obj camera zeroing vfm hv] at h
    simp only [Except.ok.injEq, Prod.mk.injEq] at h
    obtain ⟨rfl, rfl, rfl⟩ := h
    refine ⟨⟨?_, ?_⟩, ?_, ?_⟩
    · intro _
      exact ⟨convert_units_corners2d uc _, convert_units_corners3d uc _,
        convert_units_aabb_none uc _ rfl, convert_units_oobb_none uc _ rfl⟩
    · intro hvis _
      rw [convert_units_visible] at hvis
      simp [mk_result_gl, hv] at hvis
    · intro _
      exact ⟨convert_units_corners2d uc _, convert_units_corners3d uc _,
        convert_units_aabb_none uc _ rfl, convert_units_oobb_none uc _ rfl⟩
    · intro hvis _
      rw [convert_units_visible] at hvis
      simp [mk_result_cv, hv] at hvis
  | true =>
    cases hbb : compute_2dbbox ctx obj.fname_mask with
    | none =>
      cases vfm with
      | false =>
        rw [build_eq_invalid_mask ctx uc obj camera zeroing hv hbb] at h
        simp at h
      | true =>
        rw [build_eq_downgrade ctx uc obj camera zeroing hv hbb] at h
        simp only [Except.ok.injEq, Prod.mk.injEq] at h
        obtain ⟨rfl, rfl, rfl⟩ := h
        refine ⟨⟨?_, ?_⟩, ?_, ?_⟩
        · intro _
          exact ⟨convert_units_corners2d uc _, convert_units_corners3d uc _,
            convert_units_aabb_none uc _ rfl, convert_units_oobb_none uc _ rfl⟩
        · intro hvis _
          rw [convert_units_visible] at hvis
          simp [mk_result_gl] at hvis
        · intro _
          exact ⟨convert_units_corners2d uc _, convert_units_corners3d uc _,
            convert_units_aabb_none uc _ rfl, convert_units_oobb_none uc _ rfl⟩
        · intro hvis _
          rw [convert_units_visible] at hvis
          simp [mk_result_cv] at hvis
    | some bb =>
      cases h3 : compute_3dbbox ctx obj.bpy with
      | error e =>
        rw [build_eq_3dbbox_err ctx uc obj camera zeroing vfm bb e hv hbb h3] at h
        simp at h
      | ok boxes =>
        rw [build_eq_visible ctx uc obj camera zeroing vfm bb boxes hv hbb h3] at h
        simp only [Except.ok.injEq, Prod.mk.injEq] at h
        obtain ⟨rfl, rfl, rfl⟩ := h
        refine ⟨⟨?_, ?_⟩, ?_, ?_⟩
        · intro hvis
          rw [convert_units_visible] at hvis
          simp [mk_result_gl, hv] at hvis
        · intro _ _
          refine ⟨?_, ?_, ?_, ?_⟩
          · rw [convert_units_corners2d]; rfl
          · rw [convert_units_corners3d]; rfl
          · rw [convert_units_aabb_isSome]; rfl
          · rw [convert_units_oobb_isSome]; rfl
        · intro hvis
          rw [convert_units_visible] at hvis
          simp [mk_result_cv, hv] at hvis
        · intro _ _
          refine ⟨?_, ?_, ?_, ?_⟩
          · rw [convert_units_corners2d]; rfl
          · rw [convert_units_corners3d]; rfl
          · rw [convert_units_aabb_isSome]; rfl
          · rw [convert_units_oobb_isSome]; rfl

/-- Like `ctx0` but the mask image has a non-zero pixel. -/
def ctx1 : RenderCtx where
  get_relative_translation := fun _ _ => ⟨0, 0, 0⟩
  get_relative_rotation_to_cam_deg := fun _ _ _ => mat3_id
  gl2cv := fun R t => (R, t)
  project_p3d := fun v => ⟨v.x, v.y⟩
  p2d_to_pixel_coords := fun p => p
  readImage := fun _ => [[[1, 0, 0]]]

/-- The concrete build of the visible object under `ctx1`. -/
def built_vis1 : Obj × PoseRenderResult × PoseRenderResult :=
  (build_render_result ctx1 none obj_vis0 cam0 z0 false).toOption.getD
    (obj_inv0, sampleResult, sampleResult)

/-- Witness for C5 at a concrete visible object with a non-empty mask. -/
theorem pose_result_bbox_invariant_witness :
    ((built_vis1.2.1.visible = false →
        built_vis1.2.1.corners2d = none ∧ built_vis1.2.1.corners3d = none ∧
        built_vis1.2.1.aabb = none ∧ built_vis1.2.1.oobb = none) ∧
     (built_vis1.2.1.visible = true →
        emptyMask (ctx1.readImage obj_vis0.fname_mask) = false →
        built_vis1.2.1.corners2d.isSome = true ∧ built_vis1.2.1.corners3d.isSome = true ∧
        built_vis1.2.1.aabb.isSome = true ∧ built_vis1.2.1.oobb.isSome = true)) ∧
    ((built_vis1.2.2.visible = false →
        built_vis1.2.2.corners2d = none ∧ built_vis1.2.2.corners3d = none ∧
        built_vis1.2.2.aabb = none ∧ built_vis1.2.2.oobb = none) ∧
     (built_vis1.2.2.visible = true →
        emptyMask (ctx1.readImage obj_vis0.fname_mask) = false →
        built_vis1.2.2.corners2d.isSome = true ∧ built_vis1.2.2.corners3d.isSome = true ∧
        built_vis1.2.2.aabb.isSome = true ∧ built_vis1.2.2.oobb.isSome = true)) :=
  pose_result_bbox_invariant ctx1 none obj_vis0 cam0 z0 false
    built_vis1.1 built_vis1.2.1 built_vis1.2.2 rfl

theorem except_bind_ok {α β : Type} (a : α) (f : α → Except PyErr β) :
    (Except.ok a >>= f) = f a := rfl

theorem except_bind_err {α β : Type} (e : PyErr) (f : α → Except PyErr β) :
    ((Except.error e : Except PyErr α) >>= f) = Except.error e := rfl

theorem except_map_ok {α β : Type} (a : α) (f : α → β) :
    (f <$> (Except.ok a : Except PyErr α)) = Except.ok (f a) := rfl

theorem except_map_err {α β : Type} (e : PyErr) (f : α → β) :
    (f <$> (Except.error e : Except PyErr α)) = Except.error e := rfl

theorem except_pure_eq {α : Type} (a : α) :
    (pure a : Except PyErr α) = Except.ok a := rfl

/-- The recognized postprocess configuration options. -/
structure PostprocessConfig where
  depth_scale : ℚ
  compute_disparity : Bool
  parallel_cameras : List String
  parallel_cameras_baseline_mm : ℚ
  visibility_from_mask : Bool

/-- The directory/path descriptor (`dirinfo`) fields read by `postprocess`
and `save_annotations`.  `annotation_dirs` models the values iterated by
`for k in dirinfo.annotations`; it contains in particular the per-convention
directories `annotations_opengl` and `annotations_opencv`. -/
structure DirInfo where
  images_range : String
  images_depth : String
  images_base_path : String
  annotation_dirs : List String
  annotations_opengl : String
  annotations_opencv : String

/-- The file system as the set of existing directories.  `ensure_dir` models
`if not os.path.exists(d): os.mkdir(d)` (and the `os.makedirs(d,
exist_ok=True)` variant, whose observable effect on the directory itself is
the same). -/
def ensure_dir (fs : List String) (d : String) : List String :=
  if d ∈ fs then fs else fs ++ [d]

/-- Does `c` occur at the start of `s`? -/
def pyPrefixAt : List Char → List Char → Bool
  | [], _ => true
  | _ :: _, [] => false
  | a :: c, b :: s => a == b && pyPrefixAt c s

/-- Does `c` occur contiguously somewhere in `s`? -/
def pySubList (c : List Char) : List Char → Bool
  | [] => c.isEmpty
  | b :: s => pyPrefixAt c (b :: s) || pySubList c s

/-- Python's substring test `c in s`. -/
def pySubstr (c s : String) : Bool := pySubList c.toList s.toList

/-- The camera-name test of `postprocess`:
`any([c for c in parallel_cameras if c in camera.name])`.  Note this is
`any` over the *list of matching substrings themselves*, so a matching
substring counts only if it is truthy, i.e. non-empty. -/
def disparity_cameras_match (parallel_cameras : List String) (name : String) : Bool :=
  (parallel_cameras.filter (fun c => pySubstr c name)).any (fun c => !(c == ""))

/-- The per-object loop of `postprocess` (lines building and collecting the
render results).  Returns the mutated object list, the two collections of
results of visible objects (visibility tested after any downgrade, as the
code tests `obj['visible']` after `build_render_result` returns), and the
last-built pair of results, `none` when the loop body never ran. -/
def render_loop (ctx : RenderCtx) (uc : Option (ℚ → ℚ)) (camera : Camera)
    (zeroing : Vec3) (vfm : Bool) :
    List Obj →
      Except PyErr (List Obj × List PoseRenderResult × List PoseRenderResult ×
        Option (PoseRenderResult × PoseRenderResult))
  | [] => Except.ok ([], [], [], none)
  | obj :: rest => do
    let step ← build_render_result ctx uc obj camera zeroing vfm
    let tail ← render_loop ctx uc camera zeroing vfm rest
    let rgl := if step.1.visible then step.2.1 :: tail.2.1 else tail.2.1
    let rcv := if step.1.visible then step.2.2 :: tail.2.2.1 else tail.2.2.1
    let last :=
      match tail.2.2.2 with
      | some l => some l
      | none => some (step.2.1, step.2.2)
    return (step.1 :: tail.1, rgl, rcv, last)

/-- The zero-visible-objects fallback for the OpenGL collection
(`if len(results_gl) == 0: results_gl.add_result(render_result_gl)`): when
no result was collected, append the last-built result; if the loop never ran
the name `render_result_gl` is unbound and a NameError is raised. -/
def fallback_gl (results : List PoseRenderResult)
    (last : Option (PoseRenderResult × PoseRenderResult)) :
    Except PyErr (List PoseRenderResult) :=
  if results.length = 0 then
    match last with
    | some gc => Except.ok [gc.1]
    | none => Except.error (PyErr.nameError "render_result_gl")
  else
    Except.ok results

/-- The zero-visible-objects fallback for the OpenCV collection. -/
def fallback_cv (results : List PoseRenderResult)
    (last : Option (PoseRenderResult × PoseRenderResult)) :
    Except PyErr (List PoseRenderResult) :=
  if results.length = 0 then
    match last with
    | some gc => Except.ok [gc.2]
    | none => Except.error (PyErr.nameError "render_result_cv")
  else
    Except.ok results

/-- `RenderManager.save_annotations`: create each annotation directory if
absent, then write one json file per convention.  Returns the updated file
system and the two file paths written. -/
def save_annotations (fs : List String) (dirinfo : DirInfo) (base_filename : String) :
    List String × List String :=
  let fsA := dirinfo.annotation_dirs.foldl ensure_dir fs
  let f_gl := dirinfo.annotations_opengl ++ "/" ++ base_filename ++ ".json"
  let f_cv := dirinfo.annotations_opencv ++ "/" ++ base_filename ++ ".json"
  (fsA, [f_gl, f_cv])

/-- What a successful `postprocess` run produced: the resulting file system,
the mutated object list, the written depth file, the optionally written
disparity file, the annotation files written, and the two serialized
collections. -/
structure PostOut where
  fs : List String
  objs : List Obj
  depth_file : String
  disparity_file : Option String
  annotation_files : List String
  annotations_gl : List PoseRenderResult
  annotations_cv : List PoseRenderResult

/-- The disparity stage of `postprocess`: when disparity computation is
enabled and the camera-name test matches, create the `disparity`
subdirectory of the images base path if missing and write the disparity
raster there; otherwise leave the file system alone and write nothing. -/
def disparity_step (cfg : PostprocessConfig) (camera : Camera) (fs1 : List String)
    (dirinfo : DirInfo) (base_filename : String) : List String × Option String :=
  if cfg.compute_disparity then
    if disparity_cameras_match cfg.parallel_cameras camera.name then
      let dirpath := dirinfo.images_base_path ++ "/disparity"
      (ensure_dir fs1 dirpath, some (dirpath ++ "/" ++ base_filename ++ ".png"))
    else (fs1, none)
  else (fs1, none)

/-- `RenderManager.postprocess` (after the external compositor fix-up and
range-map rendering, which only produce the inputs read here): create the
depth directory if missing and write the rectified depth file; run the
disparity stage; build the per-object results; apply the
zero-visible-objects fallback; save the annotations. -/
def postprocess (ctx : RenderCtx) (uc : Option (ℚ → ℚ)) (fs : List String)
    (dirinfo : DirInfo) (base_filename : String) (camera : Camera)
    (objs : List Obj) (zeroing : Vec3) (cfg : PostprocessConfig) :
    Except PyErr PostOut := do
  let fs1 := ensure_dir fs dirinfo.images_depth
  let fpath_depth := dirinfo.images_depth ++ "/" ++ base_filename ++ ".png"
  let dispState := disparity_step cfg camera fs1 dirinfo base_filename
  let loopOut ← render_loop ctx uc camera zeroing cfg.visibility_from_mask objs
  let rgl ← fallback_gl loopOut.2.1 loopOut.2.2.2
  let rcv ← fallback_cv loopOut.2.2.1 loopOut.2.2.2
  let saved := save_annotations dispState.1 dirinfo base_filename
  return { fs := saved.1
           objs := loopOut.1
           depth_file := fpath_depth
           disparity_file := dispState.2
           annotation_files := saved.2
           annotations_gl := rgl
           annotations_cv := rcv }

theorem build_visible_consistent (ctx : RenderCtx) (uc : Option (ℚ → ℚ))
    (obj : Obj) (camera : Camera) (zeroing : Vec3) (vfm : Bool)
    (obj' : Obj) (gl cv : PoseRenderResult)
    (h : build_render_result ctx uc obj camera zeroing vfm = Except.ok (obj', gl, cv)) :
    gl.visible = obj'.visible ∧ cv.visible = obj'.visible := by
  cases hv : obj.visible with
  | false =>
    rw [build_eq_invisible ctx uc obj camera zeroing vfm hv] at h
    simp only [Except.ok.injEq, Prod.mk.injEq] at h
    obtain ⟨rfl, rfl, rfl⟩ := h
    exact ⟨convert_units_visible uc _, convert_units_visible uc _⟩
  | true =>
    cases hbb : compute_2dbbox ctx obj.fname_mask with
    | none =>
      cases vfm with
      | false =>
        rw [build_eq_invalid_mask ctx uc obj camera zeroing hv hbb] at h
        simp at h
      | true =>
        rw [build_eq_downgrade ctx uc obj camera zeroing hv hbb] at h
        simp only [Except.ok.injEq, Prod.mk.injEq] at h
        obtain ⟨rfl, rfl, rfl⟩ := h
        exact ⟨convert_units_visible uc _, convert_units_visible uc _⟩
    | some bb =>
      cases h3 : compute_3dbbox ctx obj.bpy with
      | error e =>
        rw [build_eq_3dbbox_err ctx uc obj camera zeroing vfm bb e hv hbb h3] at h
        simp at h
      | ok boxes =>
        rw [build_eq_visible ctx uc obj camera zeroing vfm bb boxes hv hbb h3] at h
        simp only [Except.ok.injEq, Prod.mk.injEq] at h
        obtain ⟨rfl, rfl, rfl⟩ := h
        exact ⟨convert_units_visible uc _, convert_units_visible uc _⟩

theorem render_loop_cons_inv (ctx : RenderCtx) (uc : Option (ℚ → ℚ))
    (camera : Camera) (zeroing : Vec3) (vfm : Bool) (obj : Obj) (rest : List Obj)
    (out : List Obj × List PoseRenderResult × List PoseRenderResult ×
      Option (PoseRenderResult × PoseRenderResult))
    (h : render_loop ctx uc camera zeroing vfm (obj :: rest) = Except.ok out) :
    ∃ step tail,
      build_render_result ctx uc obj camera zeroing vfm = Except.ok step ∧
      render_loop ctx uc camera zeroing vfm rest = Except.ok tail ∧
      out = (step.1 :: tail.1,
        (if step.1.visible then step.2.1 :: tail.2.1 else tail.2.1),
        (if step.1.visible then step.2.2 :: tail.2.2.1 else tail.2.2.1),
        (match tail.2.2.2 with
         | some l => some l
         | none => some (step.2.1, step.2.2))) := by
  cases hb : build_render_result ctx uc obj camera zeroing vfm with
  | error e => simp [render_loop, hb, except_bind_err] at h
  | ok step =>
    cases ht : render_loop ctx uc camera zeroing vfm rest with
    | error e => simp [render_loop, hb, ht, except_bind_ok, except_bind_err, except_map_err] at h
    | ok tail =>
      refine ⟨step, tail, rfl, rfl, ?_⟩
      simp only [render_loop, hb, ht, except_bind_ok, except_map_ok, except_pure_eq,
        Except.ok.injEq] at h
      exact h.symm

theorem mem_of_getLast?_eq {α : Type} (l : List α) (a : α) (h : l.getLast? = some a) :
    a ∈ l := by
  obtain ⟨hne, rfl⟩ := List.mem_getLast?_eq_getLast (show a ∈ l.getLast? from h)
  exact List.getLast_mem hne

theorem render_loop_last (ctx : RenderCtx) (uc : Option (ℚ → ℚ)) (camera : Camera)
    (zeroing : Vec3) (vfm : Bool) :
    ∀ (objs : List Obj)
      (out : List Obj × List PoseRenderResult × List PoseRenderResult ×
        Option (PoseRenderResult × PoseRenderResult)),
      objs ≠ [] →
      render_loop ctx uc camera zeroing vfm objs = Except.ok out →
      ∃ lastObj step,
        objs.getLast? = some lastObj ∧
        build_render_result ctx uc lastObj camera zeroing vfm = Except.ok step ∧
        out.2.2.2 = some (step.2.1, step.2.2) ∧
        out.1.getLast? = some step.1 := by
  intro objs
  induction objs with
  | nil => intro out hne _; exact absurd rfl hne
  | cons obj rest ih =>
    intro out _ h
    obtain ⟨step, tail, hb, ht, rfl⟩ :=
      render_loop_cons_inv ctx uc camera zeroing vfm obj rest out h
    cases rest with
    | nil =>
      have htail : tail = ([], [], [], none) := by
        simp [render_loop] at ht
        exact ht.symm
      subst htail
      exact ⟨obj, step, rfl, hb, rfl, rfl⟩
    | cons r rs =>
      obtain ⟨lastObj, step', hL, hB, hlast, hglast⟩ :=
        ih tail (by simp) ht
      refine ⟨lastObj, step', ?_, hB, ?_, ?_⟩
      · rw [List.getLast?_cons_cons]; exact hL
      · show (match tail.2.2.2 with
          | some l => some l
          | none => some (step.2.1, step.2.2)) = some (step'.2.1, step'.2.2)
        rw [hlast]
      · exact List.mem_getLast?_cons hglast

theorem render_loop_no_visible (ctx : RenderCtx) (uc : Option (ℚ → ℚ)) (camera : Camera)
    (zeroing : Vec3) (vfm : Bool) :
    ∀ (objs : List Obj)
      (out : List Obj × List PoseRenderResult × List PoseRenderResult ×
        Option (PoseRenderResult × PoseRenderResult)),
      render_loop ctx uc camera zeroing vfm objs = Except.ok out →
      (∀ o ∈ out.1, o.visible = false) →
      out.2.1 = [] ∧ out.2.2.1 = [] := by
  intro objs
  induction objs with
  | nil =>
    intro out h _
    simp [render_loop] at h
    rw [← h]
    exact ⟨rfl, rfl⟩
  | cons obj rest ih =>
    intro out h hall
    obtain ⟨step, tail, hb, ht, rfl⟩ :=
      render_loop_cons_inv ctx uc camera zeroing vfm obj rest out h
    have hv : step.1.visible = false := hall step.1 (List.mem_cons_self _ _)
    have htail := ih tail ht (fun o ho => hall o (List.mem_cons_of_mem _ ho))
    refine ⟨?_, ?_⟩
    · show (if step.1.visible then step.2.1 :: tail.2.1 else tail.2.1) = []
      rw [hv, if_neg (by simp)]
      exact htail.1
    · show (if step.1.visible then step.2.2 :: tail.2.2.1 else tail.2.2.1) = []
      rw [hv, if_neg (by simp)]
      exact htail.2

theorem postprocess_ok_inv (ctx : RenderCtx) (uc : Option (ℚ → ℚ)) (fs : List String)
    (dirinfo : DirInfo) (bf : String) (camera : Camera) (objs : List Obj)
    (zeroing : Vec3) (cfg : PostprocessConfig) (out : PostOut)
    (h : postprocess ctx uc fs dirinfo bf camera objs zeroing cfg = Except.ok out) :
    ∃ loopOut rgl rcv,
      render_loop ctx uc camera zeroing cfg.visibility_from_mask objs = Except.ok loopOut ∧
      fallback_gl loopOut.2.1 loopOut.2.2.2 = Except.ok rgl ∧
      fallback_cv loopOut.2.2.1 loopOut.2.2.2 = Except.ok rcv ∧
      out = { fs := (save_annotations
                (disparity_step cfg camera (ensure_dir fs dirinfo.images_depth) dirinfo bf).1
                dirinfo bf).1
              objs := loopOut.1
              depth_file := dirinfo.images_depth ++ "/" ++ bf ++ ".png"
              disparity_file :=
                (disparity_step cfg camera (ensure_dir fs dirinfo.images_depth) dirinfo bf).2
              annotation_files := (save_annotations
                (disparity_step cfg camera (ensure_dir fs dirinfo.images_depth) dirinfo bf).1
                dirinfo bf).2
              annotations_gl := rgl
              annotations_cv := rcv } := by
  cases hl : render_loop ctx uc camera zeroing cfg.visibility_from_mask objs with
  | error e => simp [postprocess, hl, except_bind_err] at h
  | ok loopOut =>
    cases hg : fallback_gl loopOut.2.1 loopOut.2.2.2 with
    | error e => simp [postprocess, hl, hg, except_bind_ok, except_bind_err] at h
    | ok rgl =>
      cases hc : fallback_cv loopOut.2.2.1 loopOut.2.2.2 with
      | error e => simp [postprocess, hl, hg, hc, except_bind_ok, except_bind_err] at h
      | ok rcv =>
        refine ⟨loopOut, rgl, rcv, rfl, hg, hc, ?_⟩
        simp only [postprocess, hl, hg, hc, except_bind_ok, except_pure_eq,
          Except.ok.injEq] at h
        exact h.symm

theorem ensure_dir_mem_self (fs : List String) (d : String) : d ∈ ensure_dir fs d := by
  unfold ensure_dir
  split
  · assumption
  · exact List.mem_append_right fs (List.mem_singleton.2 rfl)

theorem ensure_dir_mem_mono (fs : List String) (a d : String) (h : a ∈ fs) :
    a ∈ ensure_dir fs d := by
  unfold ensure_dir
  split
  · exact h
  · exact List.mem_append_left _ h

theorem foldl_ensure_dir_mono (ds : List String) :
    ∀ (fs : List String) (a : String), a ∈ fs → a ∈ ds.foldl ensure_dir fs := by
  induction ds with
  | nil => intro fs a h; exact h
  | cons d ds ih =>
    intro fs a h
    exact ih (ensure_dir fs d) a (ensure_dir_mem_mono fs a d h)

theorem foldl_ensure_dir_mem (ds : List String) :
    ∀ (fs : List String) (d : String), d ∈ ds → d ∈ ds.foldl ensure_dir fs := by
  induction ds with
  | nil => intro fs d h; cases h
  | cons e ds ih =>
    intro fs d h
    rcases List.mem_cons.1 h with rfl | h
    · exact foldl_ensure_dir_mono ds (ensure_dir fs d) d (ensure_dir_mem_self fs d)
    · exact ih (ensure_dir fs e) d h

theorem disparity_step_fs_mono (cfg : PostprocessConfig) (camera : Camera)
    (fs1 : List String) (dirinfo : DirInfo) (bf : String) (a : String)
    (h : a ∈ fs1) : a ∈ (disparity_step cfg camera fs1 dirinfo bf).1 := by
  unfold disparity_step
  split
  · split
    · exact ensure_dir_mem_mono fs1 a _ h
    · exact h
  · exact h

theorem disparity_step_some_dir (cfg : PostprocessConfig) (camera : Camera)
    (fs1 : List String) (dirinfo : DirInfo) (bf : String)
    (h : (disparity_step cfg camera fs1 dirinfo bf).2.isSome = true) :
    (dirinfo.images_base_path ++ "/disparity") ∈
      (disparity_step cfg camera fs1 dirinfo bf).1 := by
  cases hcd : cfg.compute_disparity with
  | false => simp [disparity_step, hcd] at h
  | true =>
    cases hm : disparity_cameras_match cfg.parallel_cameras camera.name with
    | false => simp [disparity_step, hcd, hm] at h
    | true =>
      simp only [disparity_step, hcd, hm, if_true]
      exact ensure_dir_mem_self fs1 _

/-- C3: when a postprocessed frame with a non-empty object list ends up with
no visible object (after any mask-based downgrade), both serialized
collections contain exactly one record: the result pair built for the last
object of the list, which is itself invisible. -/
theorem postprocess_zero_visible (ctx : RenderCtx) (uc : Option (ℚ → ℚ))
    (fs : List String) (dirinfo : DirInfo) (bf : String) (camera : Camera)
    (objs : List Obj) (zeroing : Vec3) (cfg : PostprocessConfig) (out : PostOut)
    (hne : objs ≠ [])
    (h : postprocess ctx uc fs dirinfo bf camera objs zeroing cfg = Except.ok out)
    (hall : ∀ o ∈ out.objs, o.visible = false) :
    ∃ lastObj obj' g c,
      objs.getLast? = some lastObj ∧
      build_render_result ctx uc lastObj camera zeroing cfg.visibility_from_mask =
        Except.ok (obj', g, c) ∧
      out.annotations_gl = [g] ∧ out.annotations_cv = [c] ∧
      g.visible = false ∧ c.visible = false := by
  obtain ⟨loopOut, rgl, rcv, hl, hg, hc, rfl⟩ :=
    postprocess_ok_inv ctx uc fs dirinfo bf camera objs zeroing cfg out h
  have hall' : ∀ o ∈ loopOut.1, o.visible = false := fun o ho => hall o ho
  have hres := render_loop_no_visible ctx uc camera zeroing cfg.visibility_from_mask
    objs loopOut hl hall'
  obtain ⟨lastObj, step, hL, hB, hlast, hglast⟩ :=
    render_loop_last ctx uc camera zeroing cfg.visibility_from_mask objs loopOut hne hl
  have hrgl : rgl = [step.2.1] := by
    rw [hres.1, hlast] at hg
    simp [fallback_gl] at hg
    exact hg.symm
  have hrcv : rcv = [step.2.2] := by
    rw [hres.2, hlast] at hc
    simp [fallback_cv] at hc
    exact hc.symm
  have hmem : step.1 ∈ loopOut.1 := mem_of_getLast?_eq loopOut.1 step.1 hglast
  have hstepv : step.1.visible = false := hall' step.1 hmem
  have hvis := build_visible_consistent ctx uc lastObj camera zeroing
    cfg.visibility_from_mask step.1 step.2.1 step.2.2 hB
  refine ⟨lastObj, step.1, step.2.1, step.2.2, hL, hB, hrgl, hrcv, ?_, ?_⟩
  · rw [hvis.1, hstepv]
  · rw [hvis.2, hstepv]

theorem fallback_gl_ok_nonempty (results : List PoseRenderResult)
    (gc : PoseRenderResult × PoseRenderResult) (r : List PoseRenderResult)
    (h : fallback_gl results (some gc) = Except.ok r) : 1 ≤ r.length := by
  unfold fallback_gl at h
  by_cases h0 : results.length = 0
  · rw [if_pos h0] at h
    simp only [Except.ok.injEq] at h
    rw [← h]
    simp
  · rw [if_neg h0] at h
    simp only [Except.ok.injEq] at h
    rw [← h]
    omega

theorem fallback_cv_ok_nonempty (results : List PoseRenderResult)
    (gc : PoseRenderResult × PoseRenderResult) (r : List PoseRenderResult)
    (h : fallback_cv results (some gc) = Except.ok r) : 1 ≤ r.length := by
  unfold fallback_cv at h
  by_cases h0 : results.length = 0
  · rw [if_pos h0] at h
    simp only [Except.ok.injEq] at h
    rw [← h]
    simp
  · rw [if_neg h0] at h
    simp only [Except.ok.injEq] at h
    rw [← h]
    omega

/-- C10: on an empty object list `postprocess` fails with the unbound-name
error for `render_result_gl` at the zero-visible-objects fallback (hence
before any annotation file is written: an exception aborts the rest of
`postprocess`, so no `PostOut` and no annotation files are produced); for a
non-empty object list every successful run serializes at least one record
per convention. -/
theorem postprocess_empty_objs (ctx : RenderCtx) (uc : Option (ℚ → ℚ))
    (fs : List String) (dirinfo : DirInfo) (bf : String) (camera : Camera)
    (zeroing : Vec3) (cfg : PostprocessConfig) :
    postprocess ctx uc fs dirinfo bf camera [] zeroing cfg =
      Except.error (PyErr.nameError "render_result_gl") ∧
    (∀ (objs : List Obj) (out : PostOut), objs ≠ [] →
      postprocess ctx uc fs dirinfo bf camera objs zeroing cfg = Except.ok out →
      1 ≤ out.annotations_gl.length ∧ 1 ≤ out.annotations_cv.length) := by
  constructor
  · rfl
  · intro objs out hne h
    obtain ⟨loopOut, rgl, rcv, hl, hg, hc, rfl⟩ :=
      postprocess_ok_inv ctx uc fs dirinfo bf camera objs zeroing cfg out h
    obtain ⟨lastObj, step, hL, hB, hlast, hglast⟩ :=
      render_loop_last ctx uc camera zeroing cfg.visibility_from_mask objs loopOut hne hl
    rw [hlast] at hg hc
    exact ⟨fallback_gl_ok_nonempty loopOut.2.1 _ rgl hg,
      fallback_cv_ok_nonempty loopOut.2.2.1 _ rcv hc⟩

/-- C9: the output directories are silently created on demand and their
absence never causes an error: whether `postprocess` succeeds does not
depend on which directories already exist, and after a successful run the
depth destination directory, the disparity subdirectory (whenever a
disparity raster was produced) and every annotation directory exist. -/
theorem postprocess_dir_creation (ctx : RenderCtx) (uc : Option (ℚ → ℚ))
    (fs fs' : List String) (dirinfo : DirInfo) (bf : String) (camera : Camera)
    (objs : List Obj) (zeroing : Vec3) (cfg : PostprocessConfig) :
    ((postprocess ctx uc fs dirinfo bf camera objs zeroing cfg).isOk =
      (postprocess ctx uc fs' dirinfo bf camera objs zeroing cfg).isOk) ∧
    (∀ out : PostOut,
      postprocess ctx uc fs dirinfo bf camera objs zeroing cfg = Except.ok out →
      dirinfo.images_depth ∈ out.fs ∧
      (out.disparity_file.isSome = true →
        (dirinfo.images_base_path ++ "/disparity") ∈ out.fs) ∧
      (∀ d ∈ dirinfo.annotation_dirs, d ∈ out.fs)) := by
  constructor
  · cases hl : render_loop ctx uc camera zeroing cfg.visibility_from_mask objs with
    | error e => simp [postprocess, hl, except_bind_err]
    | ok loopOut =>
      cases hg : fallback_gl loopOut.2.1 loopOut.2.2.2 with
      | error e => simp [postprocess, hl, hg, except_bind_ok, except_bind_err]
      | ok rgl =>
        cases hc : fallback_cv loopOut.2.2.1 loopOut.2.2.2 with
        | error e => simp [postprocess, hl, hg, hc, except_bind_ok, except_bind_err]
        | ok rcv =>
          simp [postprocess, hl, hg, hc, except_bind_ok, except_pure_eq, Except.isOk,
            Except.toBool]
  · intro out h
    obtain ⟨loopOut, rgl, rcv, hl, hg, hc, rfl⟩ :=
      postprocess_ok_inv ctx uc fs dirinfo bf camera objs zeroing cfg out h
    refine ⟨?_, ?_, ?_⟩
    · exact foldl_ensure_dir_mono dirinfo.annotation_dirs _ _
        (disparity_step_fs_mono cfg camera _ dirinfo bf _
          (ensure_dir_mem_self fs dirinfo.images_depth))
    · intro hsome
      exact foldl_ensure_dir_mono dirinfo.annotation_dirs _ _
        (disparity_step_some_dir cfg camera _ dirinfo bf hsome)
    · intro d hd
      exact foldl_ensure_dir_mem dirinfo.annotation_dirs _ d hd

theorem disparity_cameras_match_iff (cams : List String) (name : String) :
    disparity_cameras_match cams name = true ↔
      ∃ c ∈ cams, pySubstr c name = true ∧ c ≠ "" := by
  unfold disparity_cameras_match
  simp [List.any_eq_true, List.mem_filter]

/-- The amended C7: a successful `postprocess` run writes a disparity raster
(under the `disparity` subdirectory of the images base path) if and only if
`compute_disparity` is enabled and at least one NON-EMPTY configured
parallel-camera substring occurs in the active camera's name; an empty
configured substring never triggers disparity, because the code tests
`any` over the list of matching substrings themselves and the empty string
is falsy. -/
theorem postprocess_disparity_iff (ctx : RenderCtx) (uc : Option (ℚ → ℚ))
    (fs : List String) (dirinfo : DirInfo) (bf : String) (camera : Camera)
    (objs : List Obj) (zeroing : Vec3) (cfg : PostprocessConfig) (out : PostOut)
    (h : postprocess ctx uc fs dirinfo bf camera objs zeroing cfg = Except.ok out) :
    (out.disparity_file.isSome = true ↔
      (cfg.compute_disparity = true ∧
        ∃ c ∈ cfg.parallel_cameras, pySubstr c camera.name = true ∧ c ≠ "")) ∧
    (∀ p, out.disparity_file = some p →
      p = dirinfo.images_base_path ++ "/disparity/" ++ bf ++ ".png") := by
  obtain ⟨loopOut, rgl, rcv, hl, hg, hc, rfl⟩ :=
    postprocess_ok_inv ctx uc fs dirinfo bf camera objs zeroing cfg out h
  cases hcd : cfg.compute_disparity with
  | false =>
    constructor
    · simp [disparity_step, hcd]
    · intro p hp
      simp [disparity_step, hcd] at hp
  | true =>
    cases hm : disparity_cameras_match cfg.parallel_cameras camera.name with
    | false =>
      constructor
      · simp only [disparity_step, hcd, hm]
        simp [← disparity_cameras_match_iff, hm]
      · intro p hp
        simp [disparity_step, hcd, hm] at hp
    | true =>
      constructor
      · simp only [disparity_step, hcd, hm]
        simp [← disparity_cameras_match_iff, hm]
      · intro p hp
        simp only [disparity_step, hcd, hm, if_true] at hp
        simp at hp
        rw [← hp]
        simp [String.append_assoc]

/-- A concrete directory layout for evaluating the model. -/
def dirinfo0 : DirInfo where
  images_range := "ds/range"
  images_depth := "ds/depth"
  images_base_path := "ds"
  annotation_dirs := ["ds/annotations/opengl", "ds/annotations/opencv"]
  annotations_opengl := "ds/annotations/opengl"
  annotations_opencv := "ds/annotations/opencv"

/-- A configuration with disparity disabled. -/
def cfg0 : PostprocessConfig where
  depth_scale := 1
  compute_disparity := false
  parallel_cameras := ["left"]
  parallel_cameras_baseline_mm := 10
  visibility_from_mask := false

/-- A configuration whose only parallel-camera substring is the empty
string, with disparity computation enabled. -/
def cfg_empty_sub : PostprocessConfig where
  depth_scale := 1
  compute_disparity := true
  parallel_cameras := [""]
  parallel_cameras_baseline_mm := 10
  visibility_from_mask := false

/-- A configuration with disparity enabled and a matching non-empty
substring for `cam0` (named "StereoCamera.Left"). -/
def cfgD : PostprocessConfig where
  depth_scale := 1
  compute_disparity := true
  parallel_cameras := ["Stereo"]
  parallel_cameras_baseline_mm := 10
  visibility_from_mask := false

def defaultPostOut : PostOut where
  fs := []
  objs := []
  depth_file := ""
  disparity_file := none
  annotation_files := []
  annotations_gl := []
  annotations_cv := []

/-- The concrete successful run of `postprocess` on one invisible object
with disparity disabled. -/
def postOut0 : PostOut :=
  (postprocess ctx0 none [] dirinfo0 "0000" cam0 [obj_inv0] z0 cfg0).toOption.getD
    defaultPostOut

/-- The concrete successful run with disparity enabled and matching. -/
def postOutD : PostOut :=
  (postprocess ctx0 none [] dirinfo0 "0000" cam0 [obj_inv0] z0 cfgD).toOption.getD
    defaultPostOut

/-- Counterexample to C7 as stated: the empty string is a configured
parallel-camera substring and occurs in the camera's name, and disparity
computation is enabled, yet the run writes no disparity raster — code tests
`any([c for c in parallel_cameras if c in camera.name])`, and the empty
matching substring is falsy. -/
theorem postprocess_disparity_counterexample :
    pySubstr "" cam0.name = true ∧
    cfg_empty_sub.compute_disparity = true ∧
    (postprocess ctx0 none [] dirinfo0 "0000" cam0 [obj_inv0] z0 cfg_empty_sub).map
      (fun o => o.disparity_file) = Except.ok none := by
  refine ⟨by decide, rfl, rfl⟩

/-- Witness for the amended C7 at a concrete matching run. -/
theorem postprocess_disparity_iff_witness :
    ((postOutD.disparity_file.isSome = true ↔
      (cfgD.compute_disparity = true ∧
        ∃ c ∈ cfgD.parallel_cameras, pySubstr c cam0.name = true ∧ c ≠ "")) ∧
     (∀ p, postOutD.disparity_file = some p →
      p = dirinfo0.images_base_path ++ "/disparity/" ++ "0000" ++ ".png")) :=
  postprocess_disparity_iff ctx0 none [] dirinfo0 "0000" cam0 [obj_inv0] z0 cfgD
    postOutD rfl

/-- Witness for C3 at a concrete frame whose single object is invisible. -/
theorem postprocess_zero_visible_witness :
    ∃ lastObj obj' g c,
      [obj_inv0].getLast? = some lastObj ∧
      build_render_result ctx0 none lastObj cam0 z0 cfg0.visibility_from_mask =
        Except.ok (obj', g, c) ∧
      postOut0.annotations_gl = [g] ∧ postOut0.annotations_cv = [c] ∧
      g.visible = false ∧ c.visible = false :=
  postprocess_zero_visible ctx0 none [] dirinfo0 "0000" cam0 [obj_inv0] z0 cfg0
    postOut0 (by simp) rfl
    (by
      intro o ho
      rw [show postOut0.objs = [obj_inv0] from rfl] at ho
      simp only [List.mem_singleton] at ho
      rw [ho]
      rfl)

/-- Witness for C9 at a concrete run started with an empty file system. -/
theorem postprocess_dir_creation_witness :
    dirinfo0.images_depth ∈ postOut0.fs ∧
    (∀ d ∈ dirinfo0.annotation_dirs, d ∈ postOut0.fs) := by
  have h := (postprocess_dir_creation ctx0 none [] ["ds/depth"] dirinfo0 "0000" cam0
    [obj_inv0] z0 cfg0).2 postOut0 rfl
  exact ⟨h.1, h.2.2⟩

/-- Witness for C10 at a concrete non-empty frame. -/
theorem postprocess_empty_objs_witness :
    1 ≤ postOut0.annotations_gl.length ∧ 1 ≤ postOut0.annotations_cv.length :=
  (postprocess_empty_objs ctx0 none [] dirinfo0 "0000" cam0 z0 cfg0).2
    [obj_inv0] postOut0 (by simp) rfl
